import Mathlib

namespace Collate

/-- Newline character used when assembling multi-line template strings. -/
def nl : String := "\n"

/-- The fixed Unix shell template string held by the program
(the Python constant minimal_build_script in creator.py, lines 1-41),
assembled line by line, ending in a final newline exactly as in the source. -/
def minimal_build_script : String := String.intercalate nl [
    "#!/bin/bash",
    "# minimal-build.sh - Build the simple desktop app",
    "",
    "echo \"🏗️  Building Simple P2P Notebook Desktop App\"",
    "echo \"============================================\"",
    "",
    "# Clean first",
    "echo \"🧹 Cleaning previous builds...\"",
    "cargo clean",
    "",
    "echo \"\"",
    "echo \"🦀 Building Rust desktop app...\"",
    "",
    "# Build the app",
    "if cargo tauri build; then",
    "    echo \"\"",
    "    echo \"🎉 SUCCESS! Desktop app built successfully!\"",
    "    echo \"\"",
    "    echo \"📦 Your app is ready in src-tauri/target/release/bundle/\"",
    "    echo \"\"",
    "    echo \"🚀 To run in development mode:\"",
    "    echo \"   cargo tauri dev\"",
    "    echo \"\"",
    "    echo \"✅ What you have now:\"",
    "    echo \"   - Native desktop application\"",
    "    echo \"   - Simple document editor\" ",
    "    echo \"   - Basic UI with placeholders\"",
    "    echo \"   - Ready for P2P features\"",
    "    echo \"   - Ready for authentication\"",
    "else",
    "    echo \"\"",
    "    echo \"❌ Build failed. Check the error above.\"",
    "    echo \"\"",
    "    echo \"🔧 Common fixes:\"",
    "    echo \"   1. Make sure you\x27re in the project root\"",
    "    echo \"   2. Run: rustup update\"",
    "    echo \"   3. Run: cargo install @tauri-apps/cli@^2.0.0\"",
    "    echo \"   4. Check system dependencies (Linux)\"",
    "fi"] ++ "\n"

/-- The fixed Windows batch template string held by the program
(the Python constant minimal_build_bat in creator.py, lines 52-95),
assembled line by line, ending in a final newline exactly as in the source. -/
def minimal_build_bat : String := String.intercalate nl [
    "@echo off",
    "REM minimal-build.bat - Build the simple desktop app",
    "",
    "echo 🏗️  Building Simple P2P Notebook Desktop App",
    "echo ============================================",
    "",
    "REM Clean first",
    "echo 🧹 Cleaning previous builds...",
    "cargo clean",
    "",
    "echo.",
    "echo 🦀 Building Rust desktop app...",
    "",
    "REM Build the app",
    "cargo tauri build",
    "",
    "if %ERRORLEVEL% EQU 0 (",
    "    echo.",
    "    echo 🎉 SUCCESS! Desktop app built successfully!",
    "    echo.",
    "    echo 📦 Your app is ready in src-tauri/target/release/bundle/",
    "    echo.",
    "    echo 🚀 To run in development mode:",
    "    echo    cargo tauri dev",
    "    echo.",
    "    echo ✅ What you have now:",
    "    echo    - Native desktop application",
    "    echo    - Simple document editor",
    "    echo    - Basic UI with placeholders",
    "    echo    - Ready for P2P features",
    "    echo    - Ready for authentication",
    ") else (",
    "    echo.",
    "    echo ❌ Build failed. Check the error above.",
    "    echo.",
    "    echo 🔧 Common fixes:",
    "    echo    1. Make sure you\x27re in the project root",
    "    echo    2. Run: rustup update",
    "    echo    3. Run: cargo install @tauri-apps/cli@^2.0.0",
    "    echo    4. Restart command prompt as administrator",
    ")",
    "",
    "pause"] ++ "\n"

/-- Name of the Unix output file. -/
def shName : String := "minimal-build.sh"

/-- Name of the Windows output file. -/
def batName : String := "minimal-build.bat"

/-- Confirmation line printed after the Unix file is written and chmodded. -/
def shMsg : String := "\u2713 Created minimal-build.sh"

/-- Confirmation line printed after the Windows file is written. -/
def batMsg : String := "\u2713 Created minimal-build.bat"

/-- A file on disk: its byte content and its permission bits. -/
structure FileData where
  content : String
  mode : Nat
deriving DecidableEq

/-- The observable state of a run: the files of the current working
directory (an association list from file name to file data), the lines
printed to the console so far, and the external processes launched so far. -/
structure Sys where
  files : List (String × FileData)
  stdout : List String
  procs : List String
deriving DecidableEq

/-- An empty writable directory with nothing printed and nothing launched. -/
def emptySys : Sys := ⟨[], [], []⟩

/-- Look a file up by name in a directory listing. -/
def lookupF (l : List (String × FileData)) (name : String) : Option FileData :=
  (l.find? (fun p => p.1 == name)).map Prod.snd

/-- Look a file up by name in a state. -/
def lookupFile (s : Sys) (name : String) : Option FileData :=
  lookupF s.files name

/-- Content of the named file, when it exists. -/
def fileContent (s : Sys) (name : String) : Option String :=
  (lookupFile s name).map FileData.content

/-- Permission bits of the named file, when it exists. -/
def fileMode (s : Sys) (name : String) : Option Nat :=
  (lookupFile s name).map FileData.mode

/-- Replace (or create) the named file in a directory listing. -/
def setFile (l : List (String × FileData)) (name : String) (fd : FileData)
    : List (String × FileData) :=
  (name, fd) :: l.filter (fun p => p.1 != name)

/-- The permission bits a file has right after an open-for-write:
the bits it already had when it existed, or the creation mode `cm`
(the umask-derived default of the platform) when it is new.
Python's open(name, 'w') truncates an existing file keeping its mode,
and creates a missing file with the default mode. -/
def oldMode (cm : Nat) (l : List (String × FileData)) (name : String) : Nat :=
  match lookupF l name with
  | some fd => fd.mode
  | none => cm

/-- The effects the Python module body can perform:
open(name, 'w') followed by f.write(content); os.chmod(name, mode);
print(msg); and launching an external process (never used by creator.py,
present so that its absence is expressible). -/
inductive Event where
  | write : String → String → Event
  | chmod : String → Nat → Event
  | print : String → Event
  | exec : String → Event
deriving DecidableEq

/-- Whether an event launches an external process. -/
def Event.isExec : Event → Bool
  | .exec _ => true
  | _ => false

/-- Whether an event is a permission change of the named file. -/
def Event.isChmodOf (e : Event) (name : String) : Bool :=
  match e with
  | .chmod n _ => n == name
  | _ => false

/-- Filesystem errors: the only failure modes of the modelled effects. -/
inductive FsError where
  | writeFailed : String → FsError
  | chmodFailed : String → FsError
  | missingFile : String → FsError
deriving DecidableEq

/-- The filesystem's disposition: which file writes succeed (the working
directory is writable for that name) and which permission changes are
supported. -/
structure FsEnv where
  writeOk : String → Bool
  chmodOk : String → Bool

/-- A fully coöperative filesystem: every write and chmod succeeds. -/
def allOk : FsEnv := ⟨fun _ => true, fun _ => true⟩

/-- One effect, interpreted against the filesystem: it either fully
applies or fails with a filesystem error (the exception Python would
raise), leaving the state unchanged. -/
def step (env : FsEnv) (cm : Nat) (s : Sys) : Event → Except FsError Sys
  | .write name content =>
    if env.writeOk name then
      .ok { s with files := setFile s.files name ⟨content, oldMode cm s.files name⟩ }
    else
      .error (.writeFailed name)
  | .chmod name m =>
    if env.chmodOk name then
      match lookupF s.files name with
      | some fd => .ok { s with files := setFile s.files name ⟨fd.content, m⟩ }
      | none => .error (.missingFile name)
    else
      .error (.chmodFailed name)
  | .print msg => .ok { s with stdout := s.stdout ++ [msg] }
  | .exec cmdline => .ok { s with procs := s.procs ++ [cmdline] }

/-- Run a straight-line sequence of effects, stopping at the first
failure (the Python script has no try/except: the first raised exception
aborts it). Returns the state reached and the error, if any. -/
def runTrace (env : FsEnv) (cm : Nat) : Sys → List Event → Sys × Option FsError
  | s, [] => (s, none)
  | s, e :: rest =>
    match step env cm s e with
    | .ok s1 => runTrace env cm s1 rest
    | .error err => (s, some err)

/-- The straight-line effect sequence of creator.py's module body:
write minimal-build.sh, chmod it to 0o755, print its confirmation,
write minimal-build.bat, print its confirmation. -/
def emitterTrace : List Event :=
  [ .write shName minimal_build_script,
    .chmod shName 0o755,
    .print shMsg,
    .write batName minimal_build_bat,
    .print batMsg ]

/-- Execute the emitter against a filesystem disposition. -/
def runEmitter (env : FsEnv) (cm : Nat) (s : Sys) : Sys × Option FsError :=
  runTrace env cm s emitterTrace

/-- Execute the emitter on a coöperative filesystem (the normal run). -/
def run (cm : Nat) (s : Sys) : Sys :=
  (runEmitter allOk cm s).1

/-- The emitter as invoked as a process: it receives command-line
arguments and environment variables, but creator.py's module body reads
neither sys.argv nor os.environ, so they are ignored. -/
def runFull (_argv : List String) (_environ : List (String × String))
    (cm : Nat) (s : Sys) : Sys :=
  run cm s

/-- A filesystem on which every write fails (an unwritable working
directory) but permission changes would succeed. -/
def noWrite : FsEnv := ⟨fun _ => false, fun _ => true⟩

theorem lookupF_setFile_self (l : List (String × FileData)) (n : String) (fd : FileData) :
    lookupF (setFile l n fd) n = some fd := by
  simp [lookupF, setFile, List.find?]

theorem find?_filter_ne (l : List (String × FileData)) (n m : String) (h : m ≠ n) :
    (l.filter (fun p => p.1 != n)).find? (fun p => p.1 == m)
      = l.find? (fun p => p.1 == m) := by
  induction l with
  | nil => rfl
  | cons a t ih =>
    by_cases ha : a.1 = n
    · have h1 : (a.1 != n) = false := by simp [ha]
      have h2 : (a.1 == m) = false := by simp [ha]; exact fun e => h e.symm
      simp [List.filter, h1, List.find?, h2, ih]
    · have h1 : (a.1 != n) = true := by simp [ha]
      simp only [List.filter, h1, List.find?]
      cases hm : (a.1 == m) with
      | true => rfl
      | false => exact ih

theorem lookupF_setFile_ne (l : List (String × FileData)) (n m : String)
    (fd : FileData) (h : m ≠ n) :
    lookupF (setFile l n fd) m = lookupF l m := by
  have h2 : (n == m) = false := by simp; exact fun e => h e.symm
  simp only [lookupF, setFile, List.find?, h2]
  rw [find?_filter_ne l n m h]

theorem run_files (cm : Nat) (s : Sys) :
    (run cm s).files =
      setFile
        (setFile (setFile s.files shName ⟨minimal_build_script, oldMode cm s.files shName⟩)
          shName ⟨minimal_build_script, 493⟩)
        batName
        ⟨minimal_build_bat,
          oldMode cm
            (setFile (setFile s.files shName ⟨minimal_build_script, oldMode cm s.files shName⟩)
              shName ⟨minimal_build_script, 493⟩)
            batName⟩ := rfl

theorem run_stdout (cm : Nat) (s : Sys) :
    (run cm s).stdout = s.stdout ++ [shMsg, batMsg] := by
  have h : (run cm s).stdout = (s.stdout ++ [shMsg]) ++ [batMsg] := rfl
  rw [h, List.append_assoc]
  rfl

theorem run_procs (cm : Nat) (s : Sys) :
    (run cm s).procs = s.procs := rfl

theorem sh_ne_bat : shName ≠ batName := by decide

theorem run_lookup_sh (cm : Nat) (s : Sys) :
    lookupF (run cm s).files shName = some ⟨minimal_build_script, 493⟩ := by
  rw [run_files, lookupF_setFile_ne _ _ _ _ sh_ne_bat, lookupF_setFile_self]

theorem lookupF_after_sh_writes (cm : Nat) (s : Sys) :
    lookupF
      (setFile (setFile s.files shName ⟨minimal_build_script, oldMode cm s.files shName⟩)
        shName ⟨minimal_build_script, 493⟩) batName = lookupF s.files batName := by
  rw [lookupF_setFile_ne _ _ _ _ sh_ne_bat.symm, lookupF_setFile_ne _ _ _ _ sh_ne_bat.symm]

theorem oldMode_congr (cm : Nat) {l l' : List (String × FileData)} {n : String}
    (h : lookupF l n = lookupF l' n) : oldMode cm l n = oldMode cm l' n := by
  unfold oldMode
  rw [h]

theorem run_lookup_bat (cm : Nat) (s : Sys) :
    lookupF (run cm s).files batName
      = some ⟨minimal_build_bat, oldMode cm s.files batName⟩ := by
  rw [run_files, lookupF_setFile_self, oldMode_congr cm (lookupF_after_sh_writes cm s)]

theorem run_lookup_other (cm : Nat) (s : Sys) (name : String)
    (h1 : name ≠ shName) (h2 : name ≠ batName) :
    lookupF (run cm s).files name = lookupF s.files name := by
  rw [run_files, lookupF_setFile_ne _ _ _ _ h2, lookupF_setFile_ne _ _ _ _ h1,
    lookupF_setFile_ne _ _ _ _ h1]

/-- Claim C1: for every run (any creation mode, any starting directory),
after the emitter has executed, the file minimal-build.sh exists in the
working directory and its content is byte-for-byte equal to the fixed
Unix shell template string held by the program. -/
theorem c1_sh_content_exact (cm : Nat) (s : Sys) :
    fileContent (run cm s) shName = some minimal_build_script := by
  simp [fileContent, lookupFile, run_lookup_sh]

/-- Claim C2: for every run, after the emitter has executed, the file
minimal-build.bat exists in the working directory and its content is
byte-for-byte equal to the fixed Windows batch template string held by
the program. -/
theorem c2_bat_content_exact (cm : Nat) (s : Sys) :
    fileContent (run cm s) batName = some minimal_build_bat := by
  simp [fileContent, lookupFile, run_lookup_bat]

/-- Claim C3: after every run minimal-build.sh has mode 0o755, whose
owner-executable bit is set; in the emitter's effect sequence the chmod
of minimal-build.sh comes after its write; and no event of the sequence
is a permission change of minimal-build.bat. -/
theorem c3_exec_bit_and_no_bat_chmod (cm : Nat) (s : Sys) :
    fileMode (run cm s) shName = some 493
    ∧ (493 &&& 64 != 0) = true
    ∧ emitterTrace.all (fun e => !(Event.isChmodOf e batName)) = true
    ∧ ∃ i j : Nat, i < j
        ∧ emitterTrace[i]? = some (.write shName minimal_build_script)
        ∧ emitterTrace[j]? = some (.chmod shName 493) := by
  refine ⟨?_, by decide, by decide, 0, 1, by decide, rfl, rfl⟩
  simp [fileMode, lookupFile, run_lookup_sh]

/-- The mode recorded for minimal-build.bat after a run is the mode the
file had before the run, or the creation default when it was new. -/
theorem oldMode_run_bat (cm : Nat) (s : Sys) :
    oldMode cm (run cm s).files batName = oldMode cm s.files batName := by
  conv_lhs => unfold oldMode
  rw [run_lookup_bat]

/-- Claim C4: running the emitter twice in succession leaves every file
of the directory (name, content and mode) exactly as a single run does:
no content is accumulated, appended or duplicated. -/
theorem c4_idempotent (cm : Nat) (s : Sys) (name : String) :
    lookupFile (run cm (run cm s)) name = lookupFile (run cm s) name := by
  by_cases h1 : name = shName
  · subst h1
    simp [lookupFile, run_lookup_sh]
  · by_cases h2 : name = batName
    · subst h2
      simp only [lookupFile, run_lookup_bat, oldMode_run_bat]
    · simp only [lookupFile]
      rw [run_lookup_other cm (run cm s) name h1 h2]

/-- Claim C5: in an empty writable directory the emitter creates exactly
the two files minimal-build.sh and minimal-build.bat and prints exactly
two confirmation lines, the shell-script one before the batch one. -/
theorem c5_empty_dir (cm : Nat) :
    (run cm emptySys).files
        = [(batName, ⟨minimal_build_bat, cm⟩), (shName, ⟨minimal_build_script, 493⟩)]
    ∧ (run cm emptySys).stdout = [shMsg, batMsg] := by
  refine ⟨rfl, ?_⟩
  rw [run_stdout]
  rfl

/-- Claim C6: when minimal-build.sh already exists with arbitrary content
and mode, a run fully replaces its content with the Unix template; the
result does not depend on the prior content, so nothing is appended or
merged, and likewise for minimal-build.bat. -/
theorem c6_overwrite (cm prevMode : Nat) (prev : String)
    (rest : List (String × FileData)) (out pr : List String) :
    fileContent (run cm ⟨(shName, ⟨prev, prevMode⟩) :: rest, out, pr⟩) shName
        = some minimal_build_script
    ∧ fileContent (run cm ⟨(shName, ⟨prev, prevMode⟩) :: rest, out, pr⟩) batName
        = some minimal_build_bat := by
  constructor <;> simp [fileContent, lookupFile, run_lookup_sh, run_lookup_bat]

/-- Claim C7: the emitter is deterministic and takes no input: for any
command-line arguments and environment, the resulting state is the same,
the file contents written are the fixed template constants, and the
printed confirmation lines are the same fixed messages. -/
theorem c7_no_runtime_input (a1 a2 : List String) (e1 e2 : List (String × String))
    (cm : Nat) (s : Sys) :
    runFull a1 e1 cm s = runFull a2 e2 cm s
    ∧ fileContent (runFull a1 e1 cm s) shName = some minimal_build_script
    ∧ fileContent (runFull a1 e1 cm s) batName = some minimal_build_bat
    ∧ (runFull a1 e1 cm s).stdout = s.stdout ++ [shMsg, batMsg] := by
  refine ⟨rfl, ?_, ?_, ?_⟩ <;>
    simp [runFull, fileContent, lookupFile, run_lookup_sh, run_lookup_bat, run_stdout]

/-- Claim C10: after a successful run the permission bits of
minimal-build.sh are exactly 0o755: read, write and execute for the
owner, read and execute for group and others. -/
theorem c10_mode_exactly_755 (cm : Nat) (s : Sys) :
    fileMode (run cm s) shName = some 493
    ∧ 493 / 64 % 8 = 7 ∧ 493 / 8 % 8 = 5 ∧ 493 % 8 = 5 := by
  refine ⟨?_, by decide, by decide, by decide⟩
  simp [fileMode, lookupFile, run_lookup_sh]

/-- A filesystem disposition whose every operation succeeds is the fully
coöperative one. -/
theorem FsEnv_ext (env : FsEnv) (hw : ∀ n, env.writeOk n = true)
    (hc : ∀ n, env.chmodOk n = true) : env = allOk := by
  cases env with
  | mk w c =>
    have hw' : w = fun _ => true := funext hw
    have hc' : c = fun _ => true := funext hc
    rw [allOk, hw', hc']

/-- On a filesystem where every write and chmod succeeds, the emitter
finishes without error in the state of the normal run. -/
theorem runEmitter_ok (env : FsEnv) (cm : Nat) (s : Sys)
    (hw : ∀ n, env.writeOk n = true) (hc : ∀ n, env.chmodOk n = true) :
    runEmitter env cm s = (run cm s, none) := by
  rw [FsEnv_ext env hw hc]
  rfl

/-- Claim C8: under the precondition that the working directory is
writable and permission modification is supported, the emitter completes
without error; its only possible failures are the filesystem errors of
the write and chmod steps, and it launches no external process (its
effect sequence contains no process invocation, and the set of launched
processes is unchanged). -/
theorem c8_only_fs_failures (env : FsEnv) (cm : Nat) (s : Sys)
    (hw : ∀ n, env.writeOk n = true) (hc : ∀ n, env.chmodOk n = true) :
    (runEmitter env cm s).2 = none
    ∧ (runEmitter env cm s).1 = run cm s
    ∧ (runEmitter env cm s).1.procs = s.procs
    ∧ emitterTrace.all (fun e => !(Event.isExec e)) = true := by
  rw [runEmitter_ok env cm s hw hc]
  exact ⟨rfl, rfl, run_procs cm s, by decide⟩

/-- Witness for C8 at the coöperative filesystem, creation mode 438 and
an empty directory. -/
theorem c8_only_fs_failures_witness :
    (runEmitter allOk 438 emptySys).2 = none
    ∧ (runEmitter allOk 438 emptySys).1 = run 438 emptySys
    ∧ (runEmitter allOk 438 emptySys).1.procs = emptySys.procs
    ∧ emitterTrace.all (fun e => !(Event.isExec e)) = true :=
  c8_only_fs_failures allOk 438 emptySys (fun _ => rfl) (fun _ => rfl)

/-- Claim C9: the emitter's effects occur in a strict fixed sequence with
no error recovery: if the write of minimal-build.sh or its permission
change fails, minimal-build.bat is left untouched and no confirmation
line at all is printed; and in the effect sequence each confirmation
comes only after that file's write (and, for the shell script, its
permission change). -/
theorem c9_strict_sequence (env : FsEnv) (cm : Nat) (s : Sys)
    (h : env.writeOk shName = false ∨ env.chmodOk shName = false) :
    (runEmitter env cm s).2.isSome = true
    ∧ lookupFile (runEmitter env cm s).1 batName = lookupFile s batName
    ∧ (runEmitter env cm s).1.stdout = s.stdout
    ∧ (∃ i j k : Nat, i < j ∧ j < k
        ∧ emitterTrace[i]? = some (.write shName minimal_build_script)
        ∧ emitterTrace[j]? = some (.chmod shName 493)
        ∧ emitterTrace[k]? = some (.print shMsg))
    ∧ (∃ i j : Nat, i < j
        ∧ emitterTrace[i]? = some (.write batName minimal_build_bat)
        ∧ emitterTrace[j]? = some (.print batMsg)) := by
  have hmain : (runEmitter env cm s).2.isSome = true
      ∧ lookupFile (runEmitter env cm s).1 batName = lookupFile s batName
      ∧ (runEmitter env cm s).1.stdout = s.stdout := by
    cases hw : env.writeOk shName with
    | false =>
      have hrun : runEmitter env cm s = (s, some (.writeFailed shName)) := by
        simp [runEmitter, emitterTrace, runTrace, step, hw]
      rw [hrun]
      exact ⟨rfl, rfl, rfl⟩
    | true =>
      have hc : env.chmodOk shName = false := by
        rcases h with h | h
        · rw [hw] at h
          cases h
        · exact h
      have hrun : runEmitter env cm s =
          (Sys.mk (setFile s.files shName ⟨minimal_build_script, oldMode cm s.files shName⟩)
            s.stdout s.procs, some (.chmodFailed shName)) := by
        simp [runEmitter, emitterTrace, runTrace, step, hw, hc]
      rw [hrun]
      refine ⟨rfl, ?_, rfl⟩
      simp only [lookupFile]
      exact lookupF_setFile_ne _ _ _ _ sh_ne_bat.symm
  exact ⟨hmain.1, hmain.2.1, hmain.2.2,
    ⟨0, 1, 2, by decide, by decide, rfl, rfl, rfl⟩,
    ⟨3, 4, by decide, rfl, rfl⟩⟩

/-- Witness for C9 at an unwritable working directory, creation mode 438
and an empty directory. -/
theorem c9_strict_sequence_witness :
    (runEmitter noWrite 438 emptySys).2.isSome = true
    ∧ lookupFile (runEmitter noWrite 438 emptySys).1 batName = lookupFile emptySys batName
    ∧ (runEmitter noWrite 438 emptySys).1.stdout = emptySys.stdout
    ∧ (∃ i j k : Nat, i < j ∧ j < k
        ∧ emitterTrace[i]? = some (.write shName minimal_build_script)
        ∧ emitterTrace[j]? = some (.chmod shName 493)
        ∧ emitterTrace[k]? = some (.print shMsg))
    ∧ (∃ i j : Nat, i < j
        ∧ emitterTrace[i]? = some (.write batName minimal_build_bat)
        ∧ emitterTrace[j]? = some (.print batMsg)) :=
  c9_strict_sequence noWrite 438 emptySys (Or.inl rfl)

end Collate
